import Mathlib

/-
Verification of the notebook `04_TuneHyperparameters.ipynb` of the
HyperdriveDeepLearning repository.  The notebook is a sequential Azure ML
workflow: it persists a cluster name to a dotenv file, provisions (or
reuses) a compute cluster, uploads data, submits one training run, submits
a hyperparameter search, and registers the best resulting model.  The
definitions below embed the concrete objects the notebook constructs
(parameter mappings, sampling space, early-termination policy, hyperdrive
configuration, the compute-resolution branch, the dotenv operations and
the overall step order).  Where a claim depends on behaviour of the Azure
ML SDK itself (sampling semantics, best-run lookup, model versioning),
the corresponding definition is modelled from the specification's
description of that external contract and is marked as such.  Float
literals of the notebook are embedded as exact rationals.
-/

namespace HyperdriveDL

/-- Values appearing in a `script_params` mapping of the notebook: a
datastore mount reference (`ds.as_mount()`), an integer, a float
(embedded as a rational) or a string literal. -/
inductive ParamValue where
  | mount : ParamValue
  | nat : Nat → ParamValue
  | rat : ℚ → ParamValue
  | str : String → ParamValue
deriving DecidableEq, Repr

/-- Notebook cell: `num_epochs = 1` (number of epochs for training). -/
def num_epochs : Nat := 1

/-- Notebook cell: `max_total_runs = 1` (max total runs for hyperdrive). -/
def max_total_runs : Nat := 1

/-- Notebook cell: `cluster_name = "YOUR_CLUSTER_NAME"`. -/
def cluster_name : String := "YOUR_CLUSTER_NAME"

/-- The `script_params` dictionary of the single training submission
(cell 21 of the notebook), in source order. -/
def script_params : List (String × ParamValue) :=
  [ ("--data_path", .mount),
    ("--workers", .nat 8),
    ("--learning_rate", .rat 0.005),
    ("--epochs", .nat num_epochs),
    ("--anchor_sizes", .str "16,32,64,128,256,512"),
    ("--anchor_aspect_ratios", .str "0.25,0.5,1.0,2.0"),
    ("--rpn_nms_thresh", .rat 0.5),
    ("--box_nms_thresh", .rat 0.3),
    ("--box_score_thresh", .rat 0.10) ]

/-- The `script_params` dictionary of the hyperdrive base estimator
(cell 29 of the notebook), in source order. -/
def hyperdrive_script_params : List (String × ParamValue) :=
  [ ("--data_path", .mount),
    ("--workers", .nat 8),
    ("--epochs", .nat num_epochs),
    ("--box_nms_thresh", .rat 0.3),
    ("--box_score_thresh", .rat 0.10) ]

/-- A hyperparameter domain as constructed by the notebook: either
`uniform(lo, hi)` or `choice(options...)` of string literals. -/
inductive ParamDomain where
  | uniform : ℚ → ℚ → ParamDomain
  | choice : List String → ParamDomain
deriving DecidableEq, Repr

/-- The `RandomParameterSampling` search space of cell 32, in source
order. -/
def param_sampling : List (String × ParamDomain) :=
  [ ("learning_rate", .uniform 0.0005 0.005),
    ("rpn_nms_thresh", .uniform 0.3 0.7),
    ("anchor_sizes",
      .choice [ "16", "16,32", "16,32,64", "16,32,64,128",
                "16,32,64,128,256", "16,32,64,128,256,512" ]),
    ("anchor_aspect_ratios",
      .choice [ "0.25", "0.25,0.5", "0.25,0.5,1.0", "0.25,0.5,1.0,2.0" ]) ]

/-- A value a sampler can draw for one hyperparameter: a number for a
continuous domain, a string for a discrete choice. -/
inductive SampledValue where
  | num : ℚ → SampledValue
  | str : String → SampledValue
deriving DecidableEq, Repr

/-- Modelled from the spec: the sampling semantics of the external
platform's `uniform` and `choice` distributions — `uniform(lo, hi)`
draws a number in the closed interval `[lo, hi]`, and `choice` draws one
of its listed string options ("The constructed search space, when
enumerated, yields only values within declared ranges/choice sets"). -/
def inDomain : SampledValue → ParamDomain → Prop
  | .num q, .uniform lo hi => lo ≤ q ∧ q ≤ hi
  | .str s, .choice cs => s ∈ cs
  | _, _ => False

/-- An assignment (name to sampled value) is drawn from a search space
when every parameter of the space is assigned a value of its domain. -/
def drawnFrom (A : List (String × SampledValue))
    (space : List (String × ParamDomain)) : Prop :=
  ∀ p ∈ space, ∃ v, A.lookup p.1 = some v ∧ inDomain v p.2

/-- The `BanditPolicy` constructed in cell 34. -/
structure BanditPolicy where
  slack_factor : ℚ
  evaluation_interval : Nat
  delay_evaluation : Nat
deriving DecidableEq, Repr

/-- Notebook cell 34: `BanditPolicy(slack_factor=0.15,
evaluation_interval=2, delay_evaluation=2)`. -/
def early_termination_policy : BanditPolicy :=
  { slack_factor := 0.15, evaluation_interval := 2, delay_evaluation := 2 }

/-- Optimization direction of the primary metric. -/
inductive PrimaryMetricGoal where
  | MAXIMIZE
  | MINIMIZE
deriving DecidableEq, Repr

/-- The fields of the `HyperDriveConfig` the notebook constructs. -/
structure HyperDriveConfig where
  fixed_params : List (String × ParamValue)
  hyperparameter_sampling : List (String × ParamDomain)
  policy : BanditPolicy
  primary_metric_name : String
  primary_metric_goal : PrimaryMetricGoal
  max_total_runs : Nat
  max_concurrent_runs : Nat
deriving DecidableEq, Repr

/-- The `HyperDriveConfig` of cell 34, parameterised by the configured
run count `max_total_runs` set at the top of the notebook. -/
def hyperdrive_config (mtr : Nat) : HyperDriveConfig :=
  { fixed_params := hyperdrive_script_params,
    hyperparameter_sampling := param_sampling,
    policy := early_termination_policy,
    primary_metric_name := "mAP@IoU=0.50",
    primary_metric_goal := .MAXIMIZE,
    max_total_runs := mtr,
    max_concurrent_runs := 4 }

/-- A concrete sampled assignment used to show the search-space
soundness statement is not vacuous: learning_rate at the upper endpoint,
rpn_nms_thresh at the lower endpoint, and the first option of each
choice set. -/
def witnessAssignment : List (String × SampledValue) :=
  [ ("learning_rate", .num 0.005),
    ("rpn_nms_thresh", .num 0.3),
    ("anchor_sizes", .str "16"),
    ("anchor_aspect_ratios", .str "0.25") ]

/-- The exception raised by the `ComputeTarget` lookup when no cluster
of the given name exists — the only error the notebook handles. -/
inductive ComputeTargetException where
  | notFound : ComputeTargetException
deriving DecidableEq, Repr

/-- A provisioned compute cluster as the notebook sees it. -/
structure AmlComputeCluster where
  name : String
  vm_size : String
  max_nodes : Nat
deriving DecidableEq, Repr

/-- Calls the compute-resolution step issues against the platform: a
provisioning request (name, VM size, max nodes) or a blocking wait. -/
inductive ComputeAction where
  | create : String → String → Nat → ComputeAction
  | wait_for_completion : ComputeAction
deriving DecidableEq, Repr

/-- Cell 16 of the notebook: `try: compute_target = ComputeTarget(...)`
reuses the cluster found by name; `except ComputeTargetException:`
provisions a new cluster with `vm_size="STANDARD_NC6", max_nodes=8` and
blocks on `wait_for_completion`.  The lookup outcome is the input; the
result is the cluster used and the platform calls issued. -/
def resolve_compute (lookup : Except ComputeTargetException AmlComputeCluster) :
    AmlComputeCluster × List ComputeAction :=
  match lookup with
  | .ok c => (c, [])
  | .error _ =>
      (⟨cluster_name, "STANDARD_NC6", 8⟩,
       [.create cluster_name "STANDARD_NC6" 8, .wait_for_completion])

/-- C1: any assignment drawn from the constructed search space has
learning_rate in [0.0005, 0.005], rpn_nms_thresh in [0.3, 0.7],
anchor_sizes one of the six preset strings and anchor_aspect_ratios one
of the four preset strings. -/
theorem search_space_sound (A : List (String × SampledValue))
    (h : drawnFrom A param_sampling) :
    (∃ q, A.lookup "learning_rate" = some (.num q) ∧
      (0.0005 : ℚ) ≤ q ∧ q ≤ 0.005) ∧
    (∃ q, A.lookup "rpn_nms_thresh" = some (.num q) ∧
      (0.3 : ℚ) ≤ q ∧ q ≤ 0.7) ∧
    (∃ s, A.lookup "anchor_sizes" = some (.str s) ∧
      s ∈ [ "16", "16,32", "16,32,64", "16,32,64,128",
            "16,32,64,128,256", "16,32,64,128,256,512" ]) ∧
    (∃ s, A.lookup "anchor_aspect_ratios" = some (.str s) ∧
      s ∈ [ "0.25", "0.25,0.5", "0.25,0.5,1.0", "0.25,0.5,1.0,2.0" ]) := by
  obtain ⟨v₁, hl₁, hd₁⟩ :=
    h ("learning_rate", .uniform 0.0005 0.005) (List.Mem.head _)
  obtain ⟨v₂, hl₂, hd₂⟩ :=
    h ("rpn_nms_thresh", .uniform 0.3 0.7)
      (List.Mem.tail _ (List.Mem.head _))
  obtain ⟨v₃, hl₃, hd₃⟩ :=
    h ("anchor_sizes",
        .choice [ "16", "16,32", "16,32,64", "16,32,64,128",
                  "16,32,64,128,256", "16,32,64,128,256,512" ])
      (List.Mem.tail _ (List.Mem.tail _ (List.Mem.head _)))
  obtain ⟨v₄, hl₄, hd₄⟩ :=
    h ("anchor_aspect_ratios",
        .choice [ "0.25", "0.25,0.5", "0.25,0.5,1.0", "0.25,0.5,1.0,2.0" ])
      (List.Mem.tail _ (List.Mem.tail _ (List.Mem.tail _ (List.Mem.head _))))
  refine ⟨?_, ?_, ?_, ?_⟩
  · cases v₁ with
    | num q => exact ⟨q, hl₁, hd₁⟩
    | str s => exact hd₁.elim
  · cases v₂ with
    | num q => exact ⟨q, hl₂, hd₂⟩
    | str s => exact hd₂.elim
  · cases v₃ with
    | num q => exact hd₃.elim
    | str s => exact ⟨s, hl₃, hd₃⟩
  · cases v₄ with
    | num q => exact hd₄.elim
    | str s => exact ⟨s, hl₄, hd₄⟩

/-- C1 witness: the hypothesis of `search_space_sound` is satisfiable —
a concrete assignment is drawn from the space and the conclusion holds
for it. -/
theorem search_space_sound_witness :
    drawnFrom witnessAssignment param_sampling ∧
    ((∃ q, witnessAssignment.lookup "learning_rate" = some (.num q) ∧
        (0.0005 : ℚ) ≤ q ∧ q ≤ 0.005) ∧
     (∃ q, witnessAssignment.lookup "rpn_nms_thresh" = some (.num q) ∧
        (0.3 : ℚ) ≤ q ∧ q ≤ 0.7) ∧
     (∃ s, witnessAssignment.lookup "anchor_sizes" = some (.str s) ∧
        s ∈ [ "16", "16,32", "16,32,64", "16,32,64,128",
              "16,32,64,128,256", "16,32,64,128,256,512" ]) ∧
     (∃ s, witnessAssignment.lookup "anchor_aspect_ratios" = some (.str s) ∧
        s ∈ [ "0.25", "0.25,0.5", "0.25,0.5,1.0", "0.25,0.5,1.0,2.0" ])) := by
  have h : drawnFrom witnessAssignment param_sampling := by
    intro p hp
    simp only [param_sampling, List.mem_cons, List.not_mem_nil, or_false] at hp
    rcases hp with rfl | rfl | rfl | rfl
    · exact ⟨.num 0.005, rfl, by norm_num [inDomain]⟩
    · exact ⟨.num 0.3, rfl, by norm_num [inDomain]⟩
    · exact ⟨.str "16", rfl, by simp [inDomain]⟩
    · exact ⟨.str "0.25", rfl, by simp [inDomain]⟩
  exact ⟨h, search_space_sound witnessAssignment h⟩

/-- C9: each value the single submission fixes for a parameter the
search later samples lies in the search's declared domain for that
parameter: learning_rate=0.005 (the interval's upper endpoint),
rpn_nms_thresh=0.5 in [0.3, 0.7], and the two choice strings are
members of their choice sets. -/
theorem fixed_values_in_search_space :
    param_sampling.lookup "learning_rate" = some (.uniform 0.0005 0.005) ∧
    script_params.lookup "--learning_rate" = some (.rat 0.005) ∧
    inDomain (.num 0.005) (.uniform 0.0005 0.005) ∧
    param_sampling.lookup "rpn_nms_thresh" = some (.uniform 0.3 0.7) ∧
    script_params.lookup "--rpn_nms_thresh" = some (.rat 0.5) ∧
    inDomain (.num 0.5) (.uniform 0.3 0.7) ∧
    param_sampling.lookup "anchor_sizes" =
      some (.choice [ "16", "16,32", "16,32,64", "16,32,64,128",
                      "16,32,64,128,256", "16,32,64,128,256,512" ]) ∧
    script_params.lookup "--anchor_sizes" =
      some (.str "16,32,64,128,256,512") ∧
    inDomain (.str "16,32,64,128,256,512")
      (.choice [ "16", "16,32", "16,32,64", "16,32,64,128",
                 "16,32,64,128,256", "16,32,64,128,256,512" ]) ∧
    param_sampling.lookup "anchor_aspect_ratios" =
      some (.choice [ "0.25", "0.25,0.5", "0.25,0.5,1.0", "0.25,0.5,1.0,2.0" ]) ∧
    script_params.lookup "--anchor_aspect_ratios" =
      some (.str "0.25,0.5,1.0,2.0") ∧
    inDomain (.str "0.25,0.5,1.0,2.0")
      (.choice [ "0.25", "0.25,0.5", "0.25,0.5,1.0", "0.25,0.5,1.0,2.0" ]) := by
  refine ⟨rfl, rfl, ?_, rfl, rfl, ?_, rfl, rfl, ?_, rfl, rfl, ?_⟩
  · exact by norm_num [inDomain]
  · exact by norm_num [inDomain]
  · simp [inDomain]
  · simp [inDomain]

/-- C3: compute resolution reuses a cluster found by name and issues no
provisioning call; on the cluster-not-found exception it provisions with
exactly vm_size "STANDARD_NC6" and max_nodes 8 and then blocks until
provisioning completes. -/
theorem resolve_compute_branches :
    (∀ c, resolve_compute (.ok c) = (c, [])) ∧
    (∀ e, resolve_compute (.error e) =
      (⟨cluster_name, "STANDARD_NC6", 8⟩,
       [.create cluster_name "STANDARD_NC6" 8,
        .wait_for_completion])) :=
  ⟨fun _ => rfl, fun _ => rfl⟩

/-- C2: the single-submission parameter mapping has exactly the nine
documented keys, in order, with the documented literal values: workers=8,
learning_rate=0.005, epochs=num_epochs, anchor_sizes and
anchor_aspect_ratios the full preset strings, rpn_nms_thresh=0.5,
box_nms_thresh=0.3, box_score_thresh=0.10, and no extraneous keys
(the mapping has exactly these nine entries). -/
theorem single_run_script_params_exact :
    script_params.map Prod.fst =
      [ "--data_path", "--workers", "--learning_rate", "--epochs",
        "--anchor_sizes", "--anchor_aspect_ratios", "--rpn_nms_thresh",
        "--box_nms_thresh", "--box_score_thresh" ] ∧
    script_params.lookup "--data_path" = some .mount ∧
    script_params.lookup "--workers" = some (.nat 8) ∧
    script_params.lookup "--learning_rate" = some (.rat 0.005) ∧
    script_params.lookup "--epochs" = some (.nat num_epochs) ∧
    script_params.lookup "--anchor_sizes" =
      some (.str "16,32,64,128,256,512") ∧
    script_params.lookup "--anchor_aspect_ratios" =
      some (.str "0.25,0.5,1.0,2.0") ∧
    script_params.lookup "--rpn_nms_thresh" = some (.rat 0.5) ∧
    script_params.lookup "--box_nms_thresh" = some (.rat 0.3) ∧
    script_params.lookup "--box_score_thresh" = some (.rat 0.10) ∧
    script_params.length = 9 :=
  ⟨rfl, rfl, rfl, rfl, rfl, rfl, rfl, rfl, rfl, rfl, rfl⟩

/-- C4: the early-termination policy carries exactly slack_factor=0.15,
evaluation_interval=2 and delay_evaluation=2. -/
theorem early_termination_policy_exact :
    early_termination_policy.slack_factor = 0.15 ∧
    early_termination_policy.evaluation_interval = 2 ∧
    early_termination_policy.delay_evaluation = 2 :=
  ⟨rfl, rfl, rfl⟩

/-- C5: for every configured run count, the hyperdrive request carries
primary metric "mAP@IoU=0.50" maximized, max_concurrent_runs = 4, and
max_total_runs equal to that configured count. -/
theorem hyperdrive_config_exact (mtr : Nat) :
    (hyperdrive_config mtr).primary_metric_name = "mAP@IoU=0.50" ∧
    (hyperdrive_config mtr).primary_metric_goal = .MAXIMIZE ∧
    (hyperdrive_config mtr).max_concurrent_runs = 4 ∧
    (hyperdrive_config mtr).max_total_runs = mtr :=
  ⟨rfl, rfl, rfl, rfl⟩

/-- One child run of the hyperparameter search as the result resolver
sees it: an identifier and the logged value of the primary metric, if
any. -/
structure Run where
  id : Nat
  metric : Option ℚ
deriving DecidableEq, Repr

/-- Modelled from the spec: with a maximized primary metric, of two runs
the one with the larger logged metric is the better; a run with no
logged metric never beats one with a metric. -/
def betterRun (a b : Run) : Run :=
  match a.metric, b.metric with
  | some x, some y => if x < y then b else a
  | none, some _ => b
  | _, _ => a

/-- Modelled from the spec: the search handle supports "best run by
primary metric" lookup after completion — a run whose logged metric is
largest among the child runs. -/
def get_best_run_by_primary_metric : List Run → Option Run
  | [] => none
  | r :: rs => some (rs.foldl betterRun r)

/-- One entry of the model registry. -/
structure RegisteredModel where
  name : String
  version : Nat
  path : String
deriving DecidableEq, Repr

/-- Modelled from the spec: "each registration with the same name
increments a version counter" — the registry is the list of entries
registered so far, and a new registration under a name gets version one
greater than the number of existing entries under that name. -/
def register_model (reg : List RegisteredModel)
    (model_name model_path : String) :
    RegisteredModel × List RegisteredModel :=
  let v := (reg.filter (fun m => m.name == model_name)).length + 1
  let m : RegisteredModel := ⟨model_name, v, model_path⟩
  (m, reg ++ [m])

/-- Cell 42 of the notebook: register the best run's artifact at
"/outputs/model_latest.pth" under the name "torchvision_best_model";
nothing is registered when the search has no best run. -/
def register_best_model (reg : List RegisteredModel) (runs : List Run) :
    Option (RegisteredModel × List RegisteredModel) :=
  (get_best_run_by_primary_metric runs).map
    (fun _ => register_model reg "torchvision_best_model"
      "/outputs/model_latest.pth")

lemma betterRun_le_left (a b : Run) (m : ℚ) (h : a.metric = some m) :
    ∃ mb, (betterRun a b).metric = some mb ∧ m ≤ mb := by
  cases hb : b.metric with
  | none =>
      refine ⟨m, ?_, le_refl m⟩
      unfold betterRun
      rw [h, hb]
      exact h
  | some y =>
      by_cases hxy : m < y
      · refine ⟨y, ?_, le_of_lt hxy⟩
        unfold betterRun
        rw [h, hb]
        simp [hxy, hb]
      · refine ⟨m, ?_, le_refl m⟩
        unfold betterRun
        rw [h, hb]
        simp [hxy, h]

lemma betterRun_le_right (a b : Run) (m : ℚ) (h : b.metric = some m) :
    ∃ mb, (betterRun a b).metric = some mb ∧ m ≤ mb := by
  cases ha : a.metric with
  | none =>
      refine ⟨m, ?_, le_refl m⟩
      unfold betterRun
      rw [ha, h]
      exact h
  | some x =>
      by_cases hxy : x < m
      · refine ⟨m, ?_, le_refl m⟩
        unfold betterRun
        rw [ha, h]
        simp [hxy, h]
      · refine ⟨x, ?_, le_of_not_lt hxy⟩
        unfold betterRun
        rw [ha, h]
        simp [hxy, ha]

lemma foldl_betterRun_le (l : List Run) :
    ∀ (acc r : Run), (r = acc ∨ r ∈ l) → ∀ m, r.metric = some m →
      ∃ mb, (l.foldl betterRun acc).metric = some mb ∧ m ≤ mb := by
  induction l with
  | nil =>
      intro acc r hr m hm
      rcases hr with rfl | h
      · exact ⟨m, hm, le_refl m⟩
      · cases h
  | cons hd tl ih =>
      intro acc r hr m hm
      simp only [List.foldl_cons]
      rcases hr with rfl | hmem
      · obtain ⟨m₁, h₁, le₁⟩ := betterRun_le_left r hd m hm
        obtain ⟨mb, hb, le₂⟩ :=
          ih (betterRun r hd) (betterRun r hd) (Or.inl rfl) m₁ h₁
        exact ⟨mb, hb, le_trans le₁ le₂⟩
      · rcases List.mem_cons.mp hmem with rfl | htl
        · obtain ⟨m₁, h₁, le₁⟩ := betterRun_le_right acc r m hm
          obtain ⟨mb, hb, le₂⟩ :=
            ih (betterRun acc r) (betterRun acc r) (Or.inl rfl) m₁ h₁
          exact ⟨mb, hb, le_trans le₁ le₂⟩
        · exact ih (betterRun acc hd) r (Or.inr htl) m hm

/-- C6: for a completed search with at least one child run, a best run
is selected whose metric dominates every logged metric, and its artifact
at "/outputs/model_latest.pth" is registered as "torchvision_best_model";
registering the same name again on the resulting registry yields the
next version number, so reuse of a name produces distinct, incrementing
versions. -/
theorem best_run_registered (reg : List RegisteredModel) (r : Run)
    (rs : List Run) :
    ∃ best m reg₂,
      get_best_run_by_primary_metric (r :: rs) = some best ∧
      register_best_model reg (r :: rs) = some (m, reg₂) ∧
      m.name = "torchvision_best_model" ∧
      m.path = "/outputs/model_latest.pth" ∧
      (∀ r' ∈ r :: rs, ∀ mv, r'.metric = some mv →
        ∃ mb, best.metric = some mb ∧ mv ≤ mb) ∧
      (∀ p, (register_model reg₂ "torchvision_best_model" p).1.version =
        m.version + 1) := by
  refine ⟨rs.foldl betterRun r, _, _, rfl, rfl, rfl, rfl, ?_, ?_⟩
  · intro r' hr' mv hmv
    rcases List.mem_cons.mp hr' with rfl | htl
    · exact foldl_betterRun_le rs r' r' (Or.inl rfl) mv hmv
    · exact foldl_betterRun_le rs r r' (Or.inr htl) mv hmv
  · intro p
    simp [register_model, List.filter_append]

/-- C6 witness: the registration theorem applied to an empty registry
and a search with one child run whose metric is logged. -/
theorem best_run_registered_witness :
    ∃ best m reg₂,
      get_best_run_by_primary_metric [⟨0, some 1⟩] = some best ∧
      register_best_model [] [⟨0, some 1⟩] = some (m, reg₂) ∧
      m.name = "torchvision_best_model" ∧
      m.path = "/outputs/model_latest.pth" ∧
      (∀ r' ∈ [(⟨0, some 1⟩ : Run)], ∀ mv, r'.metric = some mv →
        ∃ mb, best.metric = some mb ∧ mv ≤ mb) ∧
      (∀ p, (register_model reg₂ "torchvision_best_model" p).1.version =
        m.version + 1) :=
  best_run_registered [] ⟨0, some 1⟩ []

/-- The externally visible steps the notebook performs, one constructor
per cell that touches the platform or the config file. -/
inductive Step where
  | set_cluster_key
  | load_workspace
  | create_experiment
  | copy_scripts
  | upload_images
  | upload_annotation_dir
  | resolve_compute_cluster
  | submit_single_run
  | wait_single_run
  | submit_hyperdrive
  | wait_hyperdrive
  | get_best_run
  | register_best
deriving DecidableEq, Repr

/-- The notebook's cells in top-to-bottom execution order (cells 6, 7,
8, 10, 13, 16, 23, 26, 35, 37, 40 and 42). -/
def workflow_steps : List Step :=
  [ .set_cluster_key, .load_workspace, .create_experiment, .copy_scripts,
    .upload_images, .upload_annotation_dir, .resolve_compute_cluster,
    .submit_single_run, .wait_single_run, .submit_hyperdrive,
    .wait_hyperdrive, .get_best_run, .register_best ]

/-- C7: the workflow is strictly sequential — each submission appears
exactly once, its explicit wait follows it, the single run's wait
precedes the hyperdrive submission, and the hyperdrive wait precedes
both the best-run lookup and the registration. -/
theorem workflow_strictly_sequential :
    workflow_steps.count .submit_single_run = 1 ∧
    workflow_steps.count .wait_single_run = 1 ∧
    workflow_steps.count .submit_hyperdrive = 1 ∧
    workflow_steps.count .wait_hyperdrive = 1 ∧
    workflow_steps.indexOf .submit_single_run <
      workflow_steps.indexOf .wait_single_run ∧
    workflow_steps.indexOf .wait_single_run <
      workflow_steps.indexOf .submit_hyperdrive ∧
    workflow_steps.indexOf .submit_hyperdrive <
      workflow_steps.indexOf .wait_hyperdrive ∧
    workflow_steps.indexOf .wait_hyperdrive <
      workflow_steps.indexOf .get_best_run ∧
    workflow_steps.indexOf .get_best_run <
      workflow_steps.indexOf .register_best := by
  decide

/-- The command-line parameter name behind a `script_params` key: the
key with its leading "--" removed. -/
def argName (s : String) : String := s.drop 2

/-- C8: the hyperdrive base mapping fixes exactly data_path, workers=8,
epochs=num_epochs, box_nms_thresh=0.3 and box_score_thresh=0.10; the
four sampled names are disjoint from these fixed names; together the
fixed and sampled names are exactly the nine parameter names of the
single submission. -/
theorem hyperdrive_fixed_plus_sampled_partition :
    hyperdrive_script_params.map Prod.fst =
      [ "--data_path", "--workers", "--epochs",
        "--box_nms_thresh", "--box_score_thresh" ] ∧
    hyperdrive_script_params.lookup "--data_path" = some .mount ∧
    hyperdrive_script_params.lookup "--workers" = some (.nat 8) ∧
    hyperdrive_script_params.lookup "--epochs" = some (.nat num_epochs) ∧
    hyperdrive_script_params.lookup "--box_nms_thresh" = some (.rat 0.3) ∧
    hyperdrive_script_params.lookup "--box_score_thresh" =
      some (.rat 0.10) ∧
    hyperdrive_script_params.length = 5 ∧
    ((param_sampling.map Prod.fst).all (fun n =>
      !((hyperdrive_script_params.map (fun p => argName p.1)).contains n))
      = true) ∧
    (hyperdrive_script_params.map (fun p => argName p.1) ++
        param_sampling.map Prod.fst).Perm
      (script_params.map (fun p => argName p.1)) :=
  ⟨rfl, rfl, rfl, rfl, rfl, rfl, rfl, by decide, by decide⟩

/-- dotenv `set_key` on an association-list config file: replace the
value of an existing key, append the pair otherwise. -/
def set_key : List (String × String) → String → String →
    List (String × String)
  | [], k, v => [(k, v)]
  | (a, b) :: t, k, v =>
      if a = k then (k, v) :: t else (a, b) :: set_key t k v

/-- dotenv `get_key`: a read-only lookup in the config file. -/
def get_key (cfg : List (String × String)) (k : String) : Option String :=
  cfg.lookup k

/-- An operation the notebook performs on the dotenv config file. -/
inductive ConfigOp where
  | setOp : String → String → ConfigOp
  | getOp : String → ConfigOp
deriving DecidableEq, Repr

/-- The config-file operations the notebook performs, in order: the
single `set_key(env_path, "cluster_name", cluster_name)` of cell 6 and
the four reads of cells 19 and 20. -/
def config_ops : List ConfigOp :=
  [ .setOp "cluster_name" cluster_name,
    .getOp "image_name",
    .getOp "acr_server_name",
    .getOp "acr_username",
    .getOp "acr_password" ]

/-- Effect of one config operation on the config file; reads leave it
unchanged. -/
def applyConfigOp (cfg : List (String × String)) :
    ConfigOp → List (String × String)
  | .setOp k v => set_key cfg k v
  | .getOp _ => cfg

/-- The config file after the notebook's config operations. -/
def run_config_ops (cfg : List (String × String)) :
    List (String × String) :=
  config_ops.foldl applyConfigOp cfg

/-- The keys a list of config operations writes. -/
def writtenKeys (ops : List ConfigOp) : List String :=
  ops.filterMap (fun op =>
    match op with
    | .setOp k _ => some k
    | .getOp _ => none)

lemma set_key_lookup_ne (cfg : List (String × String)) (key v k : String)
    (h : k ≠ key) : (set_key cfg key v).lookup k = cfg.lookup k := by
  induction cfg with
  | nil => simp [set_key, List.lookup, beq_false_of_ne h]
  | cons p t ih =>
      obtain ⟨a, b⟩ := p
      by_cases hak : a = key
      · subst hak
        simp [set_key, List.lookup, beq_false_of_ne h]
      · simp only [set_key, if_neg hak, List.lookup]
        cases hka : k == a
        · simp [hka, ih]
        · simp [hka]

lemma set_key_lookup_self (cfg : List (String × String)) (key v : String) :
    (set_key cfg key v).lookup key = some v := by
  induction cfg with
  | nil => simp [set_key, List.lookup]
  | cons p t ih =>
      obtain ⟨a, b⟩ := p
      by_cases hak : a = key
      · subst hak
        simp [set_key, List.lookup]
      · have : (key == a) = false := by
          simp [Ne.symm hak]
        simp [set_key, if_neg hak, List.lookup, this, ih]

/-- C10: the notebook writes exactly one config key, cluster_name (which
afterwards holds the written value); every other key — in particular
image_name, acr_server_name, acr_username and acr_password — reads the
same before and after the whole workflow. -/
theorem config_file_frame (cfg : List (String × String)) (k : String)
    (h : k ≠ "cluster_name") :
    writtenKeys config_ops = ["cluster_name"] ∧
    get_key (run_config_ops cfg) k = get_key cfg k ∧
    get_key (run_config_ops cfg) "cluster_name" = some cluster_name := by
  refine ⟨rfl, ?_, ?_⟩
  · show (set_key cfg "cluster_name" cluster_name).lookup k = cfg.lookup k
    exact set_key_lookup_ne cfg "cluster_name" cluster_name k h
  · exact set_key_lookup_self cfg "cluster_name" cluster_name

/-- C10 witness: the frame theorem applied to a concrete config file at
the concrete key "image_name". -/
theorem config_file_frame_witness :
    ("image_name" ≠ "cluster_name") ∧
    (writtenKeys config_ops = ["cluster_name"] ∧
     get_key (run_config_ops [("image_name", "img:v1")]) "image_name" =
       get_key [("image_name", "img:v1")] "image_name" ∧
     get_key (run_config_ops [("image_name", "img:v1")]) "cluster_name" =
       some cluster_name) :=
  ⟨by decide, config_file_frame [("image_name", "img:v1")] "image_name"
    (by decide)⟩

end HyperdriveDL
